import Mathlib

/-!
Shallow embedding of the basket-resolution and order-status logic of the
`django-point-of-salesman` repository.

* `OrderStatus`, `get_payable`, `get_transitions` embed
  `example/shop/status.py`.
* `Basket`, `CustomBasketManager.get_or_create_from_request` and
  `CustomBasketManager.get_from_request_or_none` embed
  `example/shop/models/basket.py`; the Django ORM store is modelled as an
  explicit list of basket records threaded through the functions, the HTTP
  session as an association list from string keys to basket primary keys.
* `checkout_create` embeds `salesman/checkout/views.py`
  (`CheckoutViewSet.get_serializer_context` and `CheckoutViewSet.create`).
* `basket_item_create` embeds
  `salesman/basket/serializers.py` (`BasketItemCreateSerializer.create`).

Machine-level details that the claims do not touch (prices, `extra` JSON
payloads, product content types) are omitted; quantities are `Nat`,
primary keys are `Nat`, reference strings are `String`.
-/

set_option autoImplicit false

namespace Salesman

/-! ## Order status graph (`example/shop/status.py`) -/

/-- The order-status enumeration of `OrderStatus` in `example/shop/status.py`. -/
inductive OrderStatus where
  | NEW
  | CREATED
  | HOLD
  | FAILED
  | CANCELLED
  | PROCESSING
  | SHIPPED
  | POS_PREPARING
  | POS_READY
  | POS_REMAKE
  | POS_SERVED
  | POS_PAID
  | COMPLETED
  | REFUNDED
  deriving DecidableEq, Repr, Fintype

namespace OrderStatus

/-- The string value of each enumeration member (first component of each
Django `Choices` pair in `OrderStatus`). -/
def value : OrderStatus → String
  | NEW => "NEW"
  | CREATED => "CREATED"
  | HOLD => "HOLD"
  | FAILED => "FAILED"
  | CANCELLED => "CANCELLED"
  | PROCESSING => "PROCESSING"
  | SHIPPED => "SHIPPED"
  | POS_PREPARING => "POS_PREPARING"
  | POS_READY => "POS_READY"
  | POS_REMAKE => "POS_REMAKE"
  | POS_SERVED => "POS_SERVED"
  | POS_PAID => "POS_PAID"
  | COMPLETED => "COMPLETED"
  | REFUNDED => "REFUNDED"

/-- `OrderStatus.get_payable` from `example/shop/status.py`. -/
def get_payable : List OrderStatus := [CREATED, HOLD, FAILED]

/-- `OrderStatus.get_transitions` from `example/shop/status.py`: the dict
mapping status-value strings to the list of allowed next statuses. -/
def get_transitions : List (String × List OrderStatus) :=
  [("NEW", [CREATED]),
   ("CREATED", [HOLD, FAILED, CANCELLED, PROCESSING,
                POS_PREPARING, POS_READY, POS_REMAKE]),
   ("HOLD", [FAILED, CANCELLED, PROCESSING]),
   ("FAILED", [CANCELLED, PROCESSING]),
   ("CANCELLED", []),
   ("PROCESSING", [SHIPPED, COMPLETED, REFUNDED]),
   ("SHIPPED", [COMPLETED, REFUNDED]),
   ("COMPLETED", [REFUNDED]),
   ("REFUNDED", [])]

/-- The outgoing edges of a status in the transition table: the list stored
under its value string, or `[]` when the status has no entry at all. -/
def successors (s : OrderStatus) : List OrderStatus :=
  (get_transitions.lookup s.value).getD []

/-- One legal transition step: `b` appears in `get_transitions` under `a`. -/
def Edge (a b : OrderStatus) : Prop := b ∈ successors a

instance (a b : OrderStatus) : Decidable (Edge a b) := by
  unfold Edge; infer_instance

/-- `b` is reachable from `a` by zero or more legal transitions. -/
def Reachable : OrderStatus → OrderStatus → Prop :=
  Relation.ReflTransGen Edge

end OrderStatus

/-- The set of statuses reachable from `CREATED`, listed explicitly; closure
under `Edge` is checked by `closedFromCreated_step`. -/
def closedFromCreated : List OrderStatus :=
  [.CREATED, .HOLD, .FAILED, .CANCELLED, .PROCESSING,
   .POS_PREPARING, .POS_READY, .POS_REMAKE, .SHIPPED, .COMPLETED, .REFUNDED]

theorem closedFromCreated_step :
    ∀ a b : OrderStatus, a ∈ closedFromCreated → OrderStatus.Edge a b →
      b ∈ closedFromCreated := by
  decide

theorem reachable_from_created_mem (x : OrderStatus)
    (h : OrderStatus.Reachable .CREATED x) : x ∈ closedFromCreated := by
  induction h with
  | refl => decide
  | tail _ hedge ih => exact closedFromCreated_step _ _ ih hedge

/-! ## Basket data model (`example/shop/models/basket.py`) -/

/-- A basket line item: the product reference slug, the quantity, and the
custom `hook_id` column that the `BasketItem` model adds (nullable). -/
structure Item where
  ref : String
  quantity : Nat
  hook_id : Option String
  deriving DecidableEq, Repr

/-- A basket row: surrogate primary key, nullable owner (`user`), the custom
unique-but-nullable `hook_id` column, and the basket's items. -/
structure Basket where
  id : Nat
  user : Option Nat
  hook_id : Option String
  items : List Item
  deriving DecidableEq, Repr

/-- The relational store seen by the manager: the basket rows in table order
plus the next primary key the ORM will allocate. -/
structure DB where
  baskets : List Basket
  nextId : Nat
  deriving DecidableEq, Repr

/-- Primary keys are distinct and below the next key to be allocated
(the ORM's surrogate-key discipline). -/
def DB.WF (db : DB) : Prop :=
  (db.baskets.map Basket.id).Nodup ∧ ∀ b ∈ db.baskets, b.id < db.nextId

instance (db : DB) : Decidable db.WF := by
  unfold DB.WF; infer_instance

/-- The HTTP session dictionary: string keys to basket primary keys. -/
abbrev Session := List (String × Nat)

/-- `request.session[key] = v`: overwrite the binding or append it. -/
def sessSet : Session → String → Nat → Session
  | [], k, v => [(k, v)]
  | (k', v') :: rest, k, v =>
      if k' == k then (k, v) :: rest else (k', v') :: sessSet rest k v

/-- `del request.session[key]`. -/
def sessDel (s : Session) (k : String) : Session :=
  s.filter (fun p => p.1 != k)

/-- Python truthiness of an `Optional[str]` value: `None` and `""` are falsy. -/
def isTruthy : Option String → Bool
  | none => false
  | some s => s != ""

def BASKET_ID_SESSION_KEY : String := "BASKET_ID"

/-- Lines 30-33 of `example/shop/models/basket.py`: `"BASKET_ID_<hook_id>"`
when a (truthy) hook id is supplied, else `"BASKET_ID"`. -/
def sessionKeyFor (hook_id : Option String) : String :=
  if isTruthy hook_id then BASKET_ID_SESSION_KEY ++ "_" ++ hook_id.getD ""
  else BASKET_ID_SESSION_KEY

/-- The identity attached to a request (`request.user`). -/
structure User where
  id : Nat
  is_authenticated : Bool
  is_staff : Bool
  deriving DecidableEq, Repr

/-- An incoming request: the session dict (absent when the request has no
`session` attribute) and the optional `user` attribute. -/
structure Request where
  session : Option Session
  user : Option User
  deriving DecidableEq, Repr

/-- The guard on line 41/86: `hasattr(request, "user") and
request.user.is_authenticated and request.user.is_staff and hook_id`. -/
def staffWithHook (req : Request) (hook_id : Option String) : Bool :=
  match req.user with
  | some u => u.is_authenticated && u.is_staff && isTruthy hook_id
  | none => false

/-- The guard on line 61: `hasattr(request, "user") and
request.user.is_authenticated`. -/
def requestAuthenticated (req : Request) : Bool :=
  match req.user with
  | some u => u.is_authenticated
  | none => false

/-- Modelled from the spec: `BaseBasket.merge` lives in
`salesman/basket/models.py`, which is not among the provided sources; the
spec describes it as folding the other basket's items into this one "by
matching product reference; summing quantities on collision, otherwise
appending". `insertItem` folds one item in: the first item with the same
`ref` gets the quantity added, otherwise the item is appended. -/
def insertItem : List Item → Item → List Item
  | [], it => [it]
  | a :: rest, it =>
      if a.ref == it.ref then { a with quantity := a.quantity + it.quantity } :: rest
      else a :: insertItem rest it

/-- Modelled from the spec: the item-level effect of `BaseBasket.merge` —
every item of `other` folded into `self`'s item list. -/
def mergeItems (self other : List Item) : List Item :=
  other.foldl insertItem self

/-- `self.merge(other)` seen at the store level: `self`'s row receives the
merged item list and `other`'s row is discarded (the spec's "discards
other"). Returns the updated store with the merged basket object. -/
def basketMergeOp (db : DB) (b other : Basket) : DB × Basket :=
  let merged : Basket := { b with items := mergeItems b.items other.items }
  let rows := db.baskets.map (fun x => if x.id == b.id then merged else x)
  ({ db with baskets := rows.filter (fun x => x.id != other.id) }, merged)

/-- The duplicate-merge loop of lines 46-49:
`for other in baskets[1:]: basket.merge(other)`. -/
def mergeLoop : DB → Basket → List Basket → DB × Basket
  | db, b, [] => (db, b)
  | db, b, o :: os =>
      let r := basketMergeOp db b o
      mergeLoop r.1 r.2 os

/-- `self.create(...)` (and the create half of `get_or_create`): a fresh row
with the next primary key, the given owner and hook id, and no items. -/
def dbCreate (db : DB) (user : Option Nat) (hook_id : Option String) : DB × Basket :=
  let b : Basket := { id := db.nextId, user := user, hook_id := hook_id, items := [] }
  ({ baskets := db.baskets ++ [b], nextId := db.nextId + 1 }, b)

/-- ORM conditions that escape the manager functions uncaught. -/
inductive OrmError where
  | multipleObjectsReturned
  deriving DecidableEq, Repr

/-- Lines 35-39 / 80-84: fetch the basket whose id is stored under
`session_key`, constrained to `user=None`. A missing key (`KeyError`) or no
matching row (`DoesNotExist`) is caught and yields `none`; several rows
sharing the id would escape as `MultipleObjectsReturned`. -/
def sessionBasketLookup (db : DB) (sess : Session) (session_key : String) :
    Except OrmError (Option Basket) :=
  match sess.lookup session_key with
  | none => .ok none
  | some sid =>
      match db.baskets.filter (fun b => b.id == sid && b.user == none) with
      | [] => .ok none
      | [b] => .ok (some b)
      | _ :: _ :: _ => .error .multipleObjectsReturned

/-- Lines 42-49: `get_or_create(hook_id=hook_id)` with its
`MultipleObjectsReturned` handler inlined — no matching row creates one, a
single row is returned as is, and duplicate rows are merged into the first
(`baskets[0]`), with `created=False` in the non-creating cases. -/
def hookFetchOrCreate (db : DB) (hook_id : Option String) : DB × Basket × Bool :=
  match db.baskets.filter (fun b => b.hook_id == hook_id) with
  | [] =>
      let r := dbCreate db none hook_id
      (r.1, r.2, true)
  | [b] => (db, b, false)
  | b0 :: b1 :: rest =>
      let r := mergeLoop db b0 (b1 :: rest)
      (r.1, r.2, false)

/-- The result of `get_or_create_from_request`: updated store, updated
session, the resolved basket and the `created` flag. -/
structure ResolveOut where
  db : DB
  session : Session
  basket : Basket
  created : Bool
  deriving DecidableEq, Repr

/-- Lines 63-65, the anonymous branch:
`basket, created = session_basket or self.create(), not session_basket`
followed by `request.session[session_key] = basket.pk`. -/
def anonymousResolve (db : DB) (sess : Session) (session_key : String)
    (session_basket : Option Basket) : ResolveOut :=
  match session_basket with
  | some sb => ⟨db, sessSet sess session_key sb.id, sb, false⟩
  | none =>
      let r := dbCreate db none none
      ⟨r.1, sessSet sess session_key r.2.id, r.2, true⟩

namespace CustomBasketManager

/-- `CustomBasketManager.get_or_create_from_request`
(`example/shop/models/basket.py`, lines 16-69). -/
def get_or_create_from_request (db : DB) (req : Request)
    (hook_id : Option String := none) : Except OrmError ResolveOut :=
  let sess := req.session.getD []
  let session_key := sessionKeyFor hook_id
  match sessionBasketLookup db sess session_key with
  | .error e => .error e
  | .ok session_basket =>
    if staffWithHook req hook_id then
      let s1 := hookFetchOrCreate db hook_id
      let s2 : DB × Basket :=
        match session_basket with
        | some sb => basketMergeOp s1.1 s1.2.1 sb
        | none => (s1.1, s1.2.1)
      let sess2 :=
        if (sess.lookup session_key).isSome then sessDel sess session_key else sess
      .ok ⟨s2.1, sess2, s2.2, s1.2.2⟩
    else
      match req.user with
      | some u =>
          if u.is_authenticated then
            -- `get_or_create(user_id=request.user.id)`; a
            -- `MultipleObjectsReturned` here is not caught by the source.
            match db.baskets.filter (fun b => b.user == some u.id) with
            | [] =>
                let r := dbCreate db (some u.id) none
                .ok ⟨r.1, sess, r.2, true⟩
            | [b] => .ok ⟨db, sess, b, false⟩
            | _ :: _ :: _ => .error .multipleObjectsReturned
          else .ok (anonymousResolve db sess session_key session_basket)
      | none => .ok (anonymousResolve db sess session_key session_basket)

/-- `CustomBasketManager.get_from_request_or_none`
(`example/shop/models/basket.py`, lines 71-101). Returns the (possibly
merged) store, the session as installed, and the optional basket. -/
def get_from_request_or_none (db : DB) (req : Request)
    (hook_id : Option String := none) :
    Except OrmError (DB × Session × Option Basket) :=
  let sess := req.session.getD []
  let session_key := sessionKeyFor hook_id
  match sessionBasketLookup db sess session_key with
  | .error e => .error e
  | .ok session_basket =>
    if staffWithHook req hook_id then
      match db.baskets.filter (fun b => b.hook_id == hook_id) with
      | [] =>
          -- `self.get` raises `DoesNotExist`, caught: basket = None.
          .ok (db, sess, none)
      | [b] =>
          match session_basket with
          | some sb =>
              let r := basketMergeOp db b sb
              .ok (r.1, sess, some r.2)
          | none =>
              -- line 96-97 `else: basket = None`: the hook-keyed basket is
              -- discarded when no session basket exists.
              .ok (db, sess, none)
      | _ :: _ :: _ => .error .multipleObjectsReturned
    else
      .ok (db, sess, session_basket)

end CustomBasketManager

/-- Total quantity carried by a product reference in an item list. -/
def qtyOf (items : List Item) (r : String) : Nat :=
  ((items.filter (fun it => it.ref == r)).map Item.quantity).sum

/-! ## Checkout endpoint (`salesman/checkout/views.py`) -/

/-- The HTTP outcomes of `CheckoutViewSet.create` that the claims
distinguish: a successful checkout, HTTP 402 from a caught `PaymentError`,
HTTP 400 from a caught `ValidationError`, and an uncaught exception
surfacing as a server fault. -/
inductive CheckoutOutcome where
  | success
  | paymentRequired
  | badRequest
  | serverFault
  deriving DecidableEq, Repr

/-- `CheckoutViewSet.get_serializer_context` (lines 60-74): with a truthy
`hook_id` in the request body, `Basket.objects.get(hook_id=...)` with
`DoesNotExist` caught by `pass`, leaving no basket in the context;
otherwise `get_or_create_from_request`. -/
def get_serializer_context (db : DB) (req : Request) (bodyHook : Option String) :
    Except OrmError (DB × Session × Option Basket) :=
  if isTruthy bodyHook then
    match db.baskets.filter (fun b => b.hook_id == bodyHook) with
    | [] => .ok (db, req.session.getD [], none)
    | [b] => .ok (db, req.session.getD [], some b)
    | _ :: _ :: _ => .error .multipleObjectsReturned
  else
    match CustomBasketManager.get_or_create_from_request db req none with
    | .error e => .error e
    | .ok out => .ok (out.db, out.session, some out.basket)

/-- Modelled from the spec: `CheckoutSerializer`
(`salesman/checkout/serializers.py`) is not among the provided sources; per
the spec the checkout flow "must surface a client-visible validation error
when a supplied hook_id resolves to no basket", so serializer validation
raises `ValidationError` exactly when the context resolved no basket.
Payment processing is abstracted by the `paymentOk` flag; its failure
raises `PaymentError`. `CheckoutViewSet.create` (lines 105-114) catches
`PaymentError` as HTTP 402 and `ValidationError` as HTTP 400. -/
def checkout_create (db : DB) (req : Request) (bodyHook : Option String)
    (paymentOk : Bool) : CheckoutOutcome :=
  match get_serializer_context db req bodyHook with
  | .error _ => .serverFault
  | .ok (_, _, none) => .badRequest
  | .ok (_, _, some _) => if paymentOk then .success else .paymentRequired

/-! ## Basket item creation (`salesman/basket/serializers.py`) -/

/-- Write an updated basket object back to its row (`basket.save()`). -/
def dbUpdateRow (db : DB) (basketId : Nat) (f : Basket → Basket) : DB :=
  { db with baskets := db.baskets.map (fun b => if b.id == basketId then f b else b) }

/-- Modelled from the spec: `BaseBasket.add` (`salesman/basket/models.py`)
is not among the provided sources; the spec's merge/add semantics (and the
commented copy of `add` in `example/shop/models/basket.py`) have it bump
the quantity of the existing item with the same `ref` and otherwise append
a fresh item row — whose own `hook_id` column is never assigned. -/
def basketAdd (items : List Item) (ref : String) (quantity : Nat) : List Item :=
  insertItem items { ref := ref, quantity := quantity, hook_id := none }

/-- `BasketItemCreateSerializer.create` (`salesman/basket/serializers.py`,
lines 183-196): pop `hook_id` from the validated payload; when truthy,
overwrite the context basket's `hook_id` and save it; then `basket.add`.
`basketId` is the primary key of the basket the request context resolved
to. -/
def basket_item_create (db : DB) (basketId : Nat) (payloadHook : Option String)
    (ref : String) (quantity : Nat) : DB :=
  let db1 :=
    if isTruthy payloadHook then
      dbUpdateRow db basketId (fun b => { b with hook_id := payloadHook })
    else db
  dbUpdateRow db1 basketId (fun b => { b with items := basketAdd b.items ref quantity })

/-! ## Claims about the status graph -/

/-- C6: in the transition table, `"CANCELLED"` and `"REFUNDED"` both map to
the empty list, and `get_payable()` is, as a set, exactly
{CREATED, HOLD, FAILED}. -/
theorem c6_terminal_and_payable :
    OrderStatus.get_transitions.lookup "CANCELLED" = some [] ∧
    OrderStatus.get_transitions.lookup "REFUNDED" = some [] ∧
    (∀ s : OrderStatus, s ∈ OrderStatus.get_payable ↔
      (s = .CREATED ∨ s = .HOLD ∨ s = .FAILED)) := by
  refine ⟨by decide, by decide, by decide⟩

/-- C2 counterexample: `POS_SERVED` is not reachable from `CREATED` in the
transition table, refuting the claim that every point-of-sale status is
reachable from `CREATED`. -/
theorem c2_pos_served_unreachable :
    ¬ OrderStatus.Reachable .CREATED .POS_SERVED := fun h =>
  absurd (reachable_from_created_mem _ h) (by decide)

/-- C2 (amended): of the five point-of-sale statuses, `POS_PREPARING`,
`POS_READY` and `POS_REMAKE` are reachable from `CREATED` (they are direct
successors), while `POS_SERVED` and `POS_PAID` are not reachable at all;
and none of the five has any outgoing edge in the transition table. -/
theorem c2_pos_statuses_amended :
    OrderStatus.Reachable .CREATED .POS_PREPARING ∧
    OrderStatus.Reachable .CREATED .POS_READY ∧
    OrderStatus.Reachable .CREATED .POS_REMAKE ∧
    ¬ OrderStatus.Reachable .CREATED .POS_SERVED ∧
    ¬ OrderStatus.Reachable .CREATED .POS_PAID ∧
    OrderStatus.successors .POS_PREPARING = [] ∧
    OrderStatus.successors .POS_READY = [] ∧
    OrderStatus.successors .POS_REMAKE = [] ∧
    OrderStatus.successors .POS_SERVED = [] ∧
    OrderStatus.successors .POS_PAID = [] := by
  refine ⟨Relation.ReflTransGen.single (by decide),
    Relation.ReflTransGen.single (by decide),
    Relation.ReflTransGen.single (by decide),
    fun h => absurd (reachable_from_created_mem _ h) (by decide),
    fun h => absurd (reachable_from_created_mem _ h) (by decide),
    by decide, by decide, by decide, by decide, by decide⟩

/-! ## Claims about the read-only variant `get_from_request_or_none` -/

theorem basketMergeOp_mem_id (db : DB) (b sb : Basket) :
    ∀ x ∈ (basketMergeOp db b sb).1.baskets, ∃ b0 ∈ db.baskets, b0.id = x.id := by
  intro x hx
  simp only [basketMergeOp, List.mem_filter, List.mem_map] at hx
  obtain ⟨⟨y, hy, hfy⟩, -⟩ := hx
  refine ⟨y, hy, ?_⟩
  subst hfy
  by_cases hid : y.id = b.id
  · simp [hid]
  · simp [hid]

theorem basketMergeOp_length (db : DB) (b sb : Basket) :
    (basketMergeOp db b sb).1.baskets.length ≤ db.baskets.length := by
  have h1 := List.length_filter_le (fun x => x.id != sb.id)
    (db.baskets.map (fun x =>
      if x.id == b.id then { b with items := mergeItems b.items sb.items } else x))
  rw [List.length_map] at h1
  simpa [basketMergeOp] using h1

theorem basketMergeOp_nextId (db : DB) (b sb : Basket) :
    (basketMergeOp db b sb).1.nextId = db.nextId := rfl

/-- C1 counterexample: a staff request supplying `hook_id = "h"` against a
store holding a basket keyed by `"h"`, but with no session basket: the
claim says the hook-keyed basket is returned, yet
`get_from_request_or_none` returns `none`. -/
theorem c1_staff_hook_counterexample :
    (Basket.mk 0 none (some "h") [])
        ∈ (DB.mk [Basket.mk 0 none (some "h") []] 1).baskets ∧
    (Basket.mk 0 none (some "h") []).hook_id = some "h" ∧
    CustomBasketManager.get_from_request_or_none
        (DB.mk [Basket.mk 0 none (some "h") []] 1)
        (Request.mk (some []) (some (User.mk 1 true true))) (some "h")
      = .ok (DB.mk [Basket.mk 0 none (some "h") []] 1, [], none) :=
  ⟨List.mem_singleton.mpr rfl, rfl, rfl⟩

/-- C1 (amended): for non-(staff+hook) requests `get_from_request_or_none`
returns the session basket or `none`; in the staff+hook branch it returns
the hook-keyed basket (with the session basket merged in) only when BOTH
the hook-keyed basket and a session basket exist, and returns `none` when
either is missing — in particular it returns `none` even when a hook-keyed
basket exists, whenever no session basket was found. -/
theorem c1_read_variant_amended (db : DB) (req : Request) (hook_id : Option String)
    (sb : Option Basket)
    (hsess : sessionBasketLookup db (req.session.getD []) (sessionKeyFor hook_id)
      = .ok sb) :
    (staffWithHook req hook_id = false →
      CustomBasketManager.get_from_request_or_none db req hook_id
        = .ok (db, req.session.getD [], sb)) ∧
    (staffWithHook req hook_id = true →
      db.baskets.filter (fun x => x.hook_id == hook_id) = [] →
      CustomBasketManager.get_from_request_or_none db req hook_id
        = .ok (db, req.session.getD [], none)) ∧
    (∀ b, staffWithHook req hook_id = true →
      db.baskets.filter (fun x => x.hook_id == hook_id) = [b] →
      sb = none →
      CustomBasketManager.get_from_request_or_none db req hook_id
        = .ok (db, req.session.getD [], none)) ∧
    (∀ b s, staffWithHook req hook_id = true →
      db.baskets.filter (fun x => x.hook_id == hook_id) = [b] →
      sb = some s →
      CustomBasketManager.get_from_request_or_none db req hook_id
        = .ok ((basketMergeOp db b s).1, req.session.getD [],
               some (basketMergeOp db b s).2)) := by
  unfold CustomBasketManager.get_from_request_or_none
  refine ⟨?_, ?_, ?_, ?_⟩
  · intro hst; simp [hsess, hst]
  · intro hst hfil; simp [hsess, hst, hfil]
  · intro b hst hfil hsb; subst hsb; simp [hsess, hst, hfil]
  · intro b s hst hfil hsb; subst hsb; simp [hsess, hst, hfil]

/-- Witness for `c1_read_variant_amended`: a staff request whose session
basket (id 1) and hook-keyed basket (id 0) both exist, so the merged
hook-keyed basket is returned. -/
theorem c1_read_variant_amended_witness :
    sessionBasketLookup
        (DB.mk [Basket.mk 0 none (some "h") [Item.mk "r" 1 none],
                Basket.mk 1 none none [Item.mk "r" 2 none]] 2)
        [("BASKET_ID_h", 1)] (sessionKeyFor (some "h"))
      = .ok (some (Basket.mk 1 none none [Item.mk "r" 2 none])) ∧
    (let db := DB.mk [Basket.mk 0 none (some "h") [Item.mk "r" 1 none],
                Basket.mk 1 none none [Item.mk "r" 2 none]] 2
     let req := Request.mk (some [("BASKET_ID_h", 1)]) (some (User.mk 1 true true))
     (staffWithHook req (some "h") = false →
      CustomBasketManager.get_from_request_or_none db req (some "h")
        = .ok (db, req.session.getD [], some (Basket.mk 1 none none [Item.mk "r" 2 none]))) ∧
    (staffWithHook req (some "h") = true →
      db.baskets.filter (fun x => x.hook_id == some "h") = [] →
      CustomBasketManager.get_from_request_or_none db req (some "h")
        = .ok (db, req.session.getD [], none)) ∧
    (∀ b, staffWithHook req (some "h") = true →
      db.baskets.filter (fun x => x.hook_id == some "h") = [b] →
      (some (Basket.mk 1 none none [Item.mk "r" 2 none]) : Option Basket) = none →
      CustomBasketManager.get_from_request_or_none db req (some "h")
        = .ok (db, req.session.getD [], none)) ∧
    (∀ b s, staffWithHook req (some "h") = true →
      db.baskets.filter (fun x => x.hook_id == some "h") = [b] →
      (some (Basket.mk 1 none none [Item.mk "r" 2 none]) : Option Basket) = some s →
      CustomBasketManager.get_from_request_or_none db req (some "h")
        = .ok ((basketMergeOp db b s).1, req.session.getD [],
               some (basketMergeOp db b s).2))) :=
  ⟨rfl, c1_read_variant_amended _ _ _ _ rfl⟩

/-- C9: `get_from_request_or_none` never writes or deletes a session key —
the session it hands back is exactly the request's session (or the freshly
installed empty dict when the request carried none). -/
theorem c9_read_variant_session_frame (db : DB) (req : Request)
    (hook_id : Option String) (out : DB × Session × Option Basket)
    (h : CustomBasketManager.get_from_request_or_none db req hook_id = .ok out) :
    out.2.1 = req.session.getD [] := by
  simp only [CustomBasketManager.get_from_request_or_none] at h
  cases hs : sessionBasketLookup db (req.session.getD []) (sessionKeyFor hook_id) with
  | error e => rw [hs] at h; simp at h
  | ok sb =>
      rw [hs] at h
      simp only [] at h
      by_cases hst : staffWithHook req hook_id
      · rw [if_pos hst] at h
        cases hfil : db.baskets.filter (fun x => x.hook_id == hook_id) with
        | nil =>
            rw [hfil] at h
            simp only [Except.ok.injEq] at h
            rw [← h]
        | cons b0 rest =>
            cases rest with
            | nil =>
                rw [hfil] at h
                cases sb with
                | none =>
                    simp only [Except.ok.injEq] at h
                    rw [← h]
                | some s =>
                    simp only [Except.ok.injEq] at h
                    rw [← h]
            | cons b1 rest2 =>
                rw [hfil] at h
                simp at h
      · rw [if_neg hst] at h
        simp only [Except.ok.injEq] at h
        rw [← h]

/-- Witness for `c9_read_variant_session_frame`: a staff request whose
session key survives the call (with its now-stale basket id) even though
the session basket was merged away. -/
theorem c9_read_variant_session_frame_witness :
    CustomBasketManager.get_from_request_or_none
        (DB.mk [Basket.mk 0 none (some "h") [Item.mk "r" 1 none],
                Basket.mk 1 none none [Item.mk "r" 2 none]] 2)
        (Request.mk (some [("BASKET_ID_h", 1)]) (some (User.mk 1 true true)))
        (some "h")
      = .ok (DB.mk [Basket.mk 0 none (some "h") [Item.mk "r" 3 none]] 2,
             [("BASKET_ID_h", 1)],
             some (Basket.mk 0 none (some "h") [Item.mk "r" 3 none])) ∧
    ([("BASKET_ID_h", 1)] : Session)
      = (Request.mk (some [("BASKET_ID_h", 1)])
          (some (User.mk 1 true true))).session.getD [] :=
  ⟨rfl,
   c9_read_variant_session_frame
     (DB.mk [Basket.mk 0 none (some "h") [Item.mk "r" 1 none],
             Basket.mk 1 none none [Item.mk "r" 2 none]] 2)
     (Request.mk (some [("BASKET_ID_h", 1)]) (some (User.mk 1 true true)))
     (some "h")
     (DB.mk [Basket.mk 0 none (some "h") [Item.mk "r" 3 none]] 2,
      [("BASKET_ID_h", 1)],
      some (Basket.mk 0 none (some "h") [Item.mk "r" 3 none]))
     rfl⟩

/-- C8: `get_from_request_or_none` never creates a basket — every basket in
the resulting store keeps a primary key that already existed, the store
does not grow, and the primary-key allocator is untouched. -/
theorem c8_read_variant_no_create (db : DB) (req : Request)
    (hook_id : Option String) (out : DB × Session × Option Basket)
    (h : CustomBasketManager.get_from_request_or_none db req hook_id = .ok out) :
    (∀ b ∈ out.1.baskets, ∃ b0 ∈ db.baskets, b0.id = b.id) ∧
    out.1.baskets.length ≤ db.baskets.length ∧
    out.1.nextId = db.nextId := by
  simp only [CustomBasketManager.get_from_request_or_none] at h
  cases hs : sessionBasketLookup db (req.session.getD []) (sessionKeyFor hook_id) with
  | error e => rw [hs] at h; simp at h
  | ok sb =>
      rw [hs] at h
      simp only [] at h
      by_cases hst : staffWithHook req hook_id
      · rw [if_pos hst] at h
        cases hfil : db.baskets.filter (fun x => x.hook_id == hook_id) with
        | nil =>
            rw [hfil] at h
            simp only [Except.ok.injEq] at h
            rw [← h]
            exact ⟨fun b hb => ⟨b, hb, rfl⟩, Nat.le_refl _, rfl⟩
        | cons b0 rest =>
            cases rest with
            | nil =>
                rw [hfil] at h
                cases sb with
                | none =>
                    simp only [Except.ok.injEq] at h
                    rw [← h]
                    exact ⟨fun b hb => ⟨b, hb, rfl⟩, Nat.le_refl _, rfl⟩
                | some s =>
                    simp only [Except.ok.injEq] at h
                    rw [← h]
                    exact ⟨basketMergeOp_mem_id db b0 s,
                      basketMergeOp_length db b0 s, basketMergeOp_nextId db b0 s⟩
            | cons b1 rest2 =>
                rw [hfil] at h
                simp at h
      · rw [if_neg hst] at h
        simp only [Except.ok.injEq] at h
        rw [← h]
        exact ⟨fun b hb => ⟨b, hb, rfl⟩, Nat.le_refl _, rfl⟩

/-- Witness for `c8_read_variant_no_create`: the merging staff call from
the C9 witness — the store shrinks from two baskets to one, ids preserved. -/
theorem c8_read_variant_no_create_witness :
    CustomBasketManager.get_from_request_or_none
        (DB.mk [Basket.mk 0 none (some "h") [Item.mk "r" 1 none],
                Basket.mk 1 none none [Item.mk "r" 2 none]] 2)
        (Request.mk (some [("BASKET_ID", 1)]) none) none
      = .ok (DB.mk [Basket.mk 0 none (some "h") [Item.mk "r" 1 none],
                    Basket.mk 1 none none [Item.mk "r" 2 none]] 2,
             [("BASKET_ID", 1)],
             some (Basket.mk 1 none none [Item.mk "r" 2 none])) ∧
    (2 : Nat) = 2 :=
  ⟨rfl,
   (c8_read_variant_no_create
      (DB.mk [Basket.mk 0 none (some "h") [Item.mk "r" 1 none],
              Basket.mk 1 none none [Item.mk "r" 2 none]] 2)
      (Request.mk (some [("BASKET_ID", 1)]) none) none
      (DB.mk [Basket.mk 0 none (some "h") [Item.mk "r" 1 none],
              Basket.mk 1 none none [Item.mk "r" 2 none]] 2,
       [("BASKET_ID", 1)],
       some (Basket.mk 1 none none [Item.mk "r" 2 none]))
      rfl).2.2⟩

/-! ## Bookkeeping lemmas for sessions, quantities and merging -/

theorem lookup_sessDel (s : Session) (k : String) :
    (sessDel s k).lookup k = none := by
  induction s with
  | nil => rfl
  | cons p t ih =>
      obtain ⟨a, v⟩ := p
      by_cases hp : a = k
      · simpa [sessDel, List.filter_cons, hp] using ih
      · have hk : (k == a) = false := by simp [Ne.symm hp]
        simpa [sessDel, List.filter_cons, hp, List.lookup, hk] using ih

theorem lookup_sessSet_self (s : Session) (k : String) (v : Nat) :
    (sessSet s k v).lookup k = some v := by
  induction s with
  | nil => simp [sessSet, List.lookup]
  | cons p t ih =>
      obtain ⟨a, w⟩ := p
      by_cases hp : a = k
      · simp [sessSet, hp, List.lookup]
      · have hk : (k == a) = false := by simp [Ne.symm hp]
        simpa [sessSet, hp, List.lookup, hk] using ih

theorem qtyOf_cons (x : Item) (l : List Item) (r : String) :
    qtyOf (x :: l) r = (if x.ref = r then x.quantity else 0) + qtyOf l r := by
  by_cases hx : x.ref = r <;> simp [qtyOf, List.filter_cons, hx]

theorem qtyOf_insertItem (l : List Item) (it : Item) (r : String) :
    qtyOf (insertItem l it) r
      = qtyOf l r + (if it.ref = r then it.quantity else 0) := by
  induction l with
  | nil =>
      by_cases hr : it.ref = r <;> simp [insertItem, qtyOf, List.filter_cons, hr]
  | cons a t ih =>
      by_cases ha : a.ref = it.ref
      · have hbeq : (a.ref == it.ref) = true := by simpa using ha
        simp only [insertItem, hbeq, if_true, qtyOf_cons]
        by_cases hr : a.ref = r
        · rw [if_pos hr, if_pos hr, if_pos (ha.symm.trans hr)]
          omega
        · rw [if_neg hr, if_neg hr, if_neg (fun hc => hr (ha.trans hc))]
          omega
      · have hbeq : (a.ref == it.ref) = false := by simpa using ha
        simp only [insertItem, hbeq, Bool.false_eq_true, if_false, qtyOf_cons, ih]
        omega

theorem qtyOf_mergeItems (a b : List Item) (r : String) :
    qtyOf (mergeItems a b) r = qtyOf a r + qtyOf b r := by
  induction b generalizing a with
  | nil => simp [mergeItems, qtyOf]
  | cons it bs ih =>
      have : mergeItems a (it :: bs) = mergeItems (insertItem a it) bs := rfl
      rw [this, ih, qtyOf_insertItem, qtyOf_cons]
      by_cases hr : it.ref = r
      · rw [if_pos hr]; omega
      · rw [if_neg hr]; omega

theorem basketMergeOp_snd_id (db : DB) (b o : Basket) :
    (basketMergeOp db b o).2.id = b.id := rfl

theorem mergeLoop_snd_fields :
    ∀ (os : List Basket) (db : DB) (b : Basket),
      (mergeLoop db b os).2.id = b.id ∧
      (mergeLoop db b os).2.hook_id = b.hook_id ∧
      (mergeLoop db b os).2.user = b.user := by
  intro os
  induction os with
  | nil => intro db b; exact ⟨rfl, rfl, rfl⟩
  | cons o os ih =>
      intro db b
      simpa [mergeLoop, basketMergeOp] using
        ih (basketMergeOp db b o).1 (basketMergeOp db b o).2

theorem mergeLoop_snd_qty (r : String) :
    ∀ (os : List Basket) (db : DB) (b : Basket),
      qtyOf (mergeLoop db b os).2.items r
        = qtyOf b.items r + (os.map (fun o => qtyOf o.items r)).sum := by
  intro os
  induction os with
  | nil => intro db b; simp [mergeLoop]
  | cons o os ih =>
      intro db b
      have step : (basketMergeOp db b o).2.items = mergeItems b.items o.items := rfl
      have hrec := ih (basketMergeOp db b o).1 (basketMergeOp db b o).2
      rw [step, qtyOf_mergeItems] at hrec
      have hm : mergeLoop db b (o :: os)
          = mergeLoop (basketMergeOp db b o).1 (basketMergeOp db b o).2 os := rfl
      rw [hm, hrec]
      simp only [List.map_cons, List.sum_cons]
      omega

theorem filter_map_comm {α : Type} (f : α → α) (p : α → Bool) :
    ∀ l : List α, (∀ x ∈ l, p (f x) = p x) →
      (l.map f).filter p = (l.filter p).map f := by
  intro l
  induction l with
  | nil => intro _; rfl
  | cons a t ih =>
      intro hall
      have ha := hall a (List.mem_cons_self a t)
      have ht := ih fun x hx => hall x (List.mem_cons_of_mem _ hx)
      by_cases hp : p a = true
      · simp [List.filter_cons, hp, ha, ht]
      · have hf : p a = false := Bool.eq_false_iff.mpr hp
        simp [List.filter_cons, hf, ha, ht]

theorem basketMergeOp_filter_hook (db : DB) (b o : Basket) (hook_id : Option String)
    (os : List Basket)
    (hn : (db.baskets.map Basket.id).Nodup)
    (hfil : db.baskets.filter (fun x => x.hook_id == hook_id) = b :: o :: os) :
    (basketMergeOp db b o).1.baskets.filter (fun x => x.hook_id == hook_id)
        = (basketMergeOp db b o).2 :: os ∧
    ((basketMergeOp db b o).1.baskets.map Basket.id).Nodup := by
  set p : Basket → Bool := fun x => x.hook_id == hook_id with hp
  set merged : Basket := { b with items := mergeItems b.items o.items } with hmerged
  set f : Basket → Basket := fun x => if x.id == b.id then merged else x with hf
  have hbmem : b ∈ db.baskets :=
    List.mem_of_mem_filter (p := p) (by rw [hfil]; exact List.mem_cons_self _ _)
  have hinj := List.inj_on_of_nodup_map hn
  have hfn2 : ((b :: o :: os).map Basket.id).Nodup := by
    have h := hn.sublist ((List.filter_sublist db.baskets (p := p)).map Basket.id)
    rwa [hfil] at h
  rw [List.map_cons, List.map_cons] at hfn2
  have h1 := (List.nodup_cons.mp hfn2).1
  have h2 := (List.nodup_cons.mp (List.nodup_cons.mp hfn2).2).1
  have hbo : b.id ≠ o.id := fun hc => h1 (by rw [hc]; exact List.mem_cons_self _ _)
  have hbos : ∀ x ∈ os, x.id ≠ b.id := fun x hx hc =>
    h1 (List.mem_cons_of_mem _ (List.mem_map.mpr ⟨x, hx, hc⟩))
  have hoos : ∀ x ∈ os, x.id ≠ o.id := fun x hx hc =>
    h2 (List.mem_map.mpr ⟨x, hx, hc⟩)
  have hfx_id : ∀ x, (f x).id = x.id := by
    intro x
    by_cases hx : x.id = b.id
    · simp [hf, hx, hmerged]
    · simp [hf, hx]
  have hfp : ∀ x ∈ db.baskets, p (f x) = p x := by
    intro x hx
    by_cases hid : x.id = b.id
    · have hxb : x = b := hinj hx hbmem hid
      subst hxb
      simp [hf, hmerged, hp]
    · simp [hf, hid]
  have hdb1 : (basketMergeOp db b o).1.baskets
      = (db.baskets.map f).filter (fun x => x.id != o.id) := rfl
  have hsnd : (basketMergeOp db b o).2 = merged := rfl
  have hmap : (db.baskets.map f).filter p = merged :: o :: os := by
    rw [filter_map_comm f p db.baskets hfp, hfil]
    rw [List.map_cons, List.map_cons]
    have hfb : f b = merged := by simp [hf]
    have hfo : f o = o := by simp [hf, Ne.symm hbo]
    have hos : os.map f = os := by
      rw [List.map_congr_left (fun x hx => by simp [hf, hbos x hx] : ∀ x ∈ os, f x = x)]
      exact List.map_id os
    rw [hfb, hfo, hos]
  have hq : (merged :: o :: os).filter (fun x => x.id != o.id) = merged :: os := by
    rw [List.filter_cons, List.filter_cons]
    have hm : (merged.id != o.id) = true := by
      simpa [hmerged] using hbo
    have ho : (o.id != o.id) = false := by simp
    rw [hm, ho]
    simp only [if_true, Bool.false_eq_true, if_false]
    rw [List.filter_eq_self.mpr (fun x hx => by simpa using hoos x hx)]
  constructor
  · rw [hdb1, hsnd]
    calc ((db.baskets.map f).filter (fun x => x.id != o.id)).filter p
        = ((db.baskets.map f).filter p).filter (fun x => x.id != o.id) :=
          List.filter_comm _ _ _
      _ = (merged :: o :: os).filter (fun x => x.id != o.id) := by rw [hmap]
      _ = merged :: os := hq
  · rw [hdb1]
    have hids : (db.baskets.map f).map Basket.id = db.baskets.map Basket.id := by
      rw [List.map_map]
      exact List.map_congr_left (fun x _ => hfx_id x)
    have hnd : ((db.baskets.map f).map Basket.id).Nodup := by
      rw [hids]; exact hn
    exact hnd.sublist ((List.filter_sublist _).map Basket.id)

theorem mergeLoop_filter_hook (hook_id : Option String) :
    ∀ (os : List Basket) (db : DB) (b : Basket),
      (db.baskets.map Basket.id).Nodup →
      db.baskets.filter (fun x => x.hook_id == hook_id) = b :: os →
      (mergeLoop db b os).1.baskets.filter (fun x => x.hook_id == hook_id)
          = [(mergeLoop db b os).2] ∧
      ((mergeLoop db b os).1.baskets.map Basket.id).Nodup := by
  intro os
  induction os with
  | nil =>
      intro db b hn hfil
      exact ⟨by simpa [mergeLoop] using hfil, by simpa [mergeLoop] using hn⟩
  | cons o os ih =>
      intro db b hn hfil
      have step := basketMergeOp_filter_hook db b o hook_id os hn hfil
      have hrec := ih (basketMergeOp db b o).1 (basketMergeOp db b o).2 step.2 step.1
      have hm : mergeLoop db b (o :: os)
          = mergeLoop (basketMergeOp db b o).1 (basketMergeOp db b o).2 os := rfl
      rw [hm]
      exact hrec

/-! ## Evaluation lemmas for `get_or_create_from_request` -/

theorem get_or_create_staff_nosession (db : DB) (req : Request)
    (hook_id : Option String)
    (hst : staffWithHook req hook_id = true)
    (hsess : sessionBasketLookup db (req.session.getD []) (sessionKeyFor hook_id)
      = .ok none) :
    CustomBasketManager.get_or_create_from_request db req hook_id
      = .ok ⟨(hookFetchOrCreate db hook_id).1,
             (if ((req.session.getD []).lookup (sessionKeyFor hook_id)).isSome
              then sessDel (req.session.getD []) (sessionKeyFor hook_id)
              else req.session.getD []),
             (hookFetchOrCreate db hook_id).2.1,
             (hookFetchOrCreate db hook_id).2.2⟩ := by
  simp only [CustomBasketManager.get_or_create_from_request, hsess, hst, if_true]

theorem get_or_create_staff_session (db : DB) (req : Request)
    (hook_id : Option String) (sb : Basket)
    (hst : staffWithHook req hook_id = true)
    (hsess : sessionBasketLookup db (req.session.getD []) (sessionKeyFor hook_id)
      = .ok (some sb)) :
    CustomBasketManager.get_or_create_from_request db req hook_id
      = .ok ⟨(basketMergeOp (hookFetchOrCreate db hook_id).1
                (hookFetchOrCreate db hook_id).2.1 sb).1,
             (if ((req.session.getD []).lookup (sessionKeyFor hook_id)).isSome
              then sessDel (req.session.getD []) (sessionKeyFor hook_id)
              else req.session.getD []),
             (basketMergeOp (hookFetchOrCreate db hook_id).1
                (hookFetchOrCreate db hook_id).2.1 sb).2,
             (hookFetchOrCreate db hook_id).2.2⟩ := by
  simp only [CustomBasketManager.get_or_create_from_request, hsess, hst, if_true]

theorem sessionBasketLookup_some_isSome (db : DB) (sess : Session) (k : String)
    (s : Basket) (h : sessionBasketLookup db sess k = .ok (some s)) :
    (sess.lookup k).isSome = true := by
  unfold sessionBasketLookup at h
  cases hl : sess.lookup k with
  | none => rw [hl] at h; simp at h
  | some v => rfl

/-! ## Claims about `get_or_create_from_request` -/

/-- C3: a staff call with a hook id shared by two or more baskets (and no
session basket found) leaves exactly one basket with that hook id: the
first duplicate, carrying the duplicates' items with quantities summed per
product reference, with `created = False`. -/
theorem c3_duplicate_hook_merge (db : DB) (req : Request) (hook_id : Option String)
    (b0 b1 : Basket) (rest : List Basket)
    (hwf : db.WF)
    (hst : staffWithHook req hook_id = true)
    (hsess : sessionBasketLookup db (req.session.getD []) (sessionKeyFor hook_id)
      = .ok none)
    (hdup : db.baskets.filter (fun x => x.hook_id == hook_id) = b0 :: b1 :: rest) :
    ∃ out : ResolveOut,
      CustomBasketManager.get_or_create_from_request db req hook_id = .ok out ∧
      out.db.baskets.filter (fun x => x.hook_id == hook_id) = [out.basket] ∧
      out.basket.id = b0.id ∧
      (∀ r : String, qtyOf out.basket.items r
        = ((b0 :: b1 :: rest).map (fun x => qtyOf x.items r)).sum) ∧
      out.created = false := by
  have heval := get_or_create_staff_nosession db req hook_id hst hsess
  have hfoc : hookFetchOrCreate db hook_id
      = ((mergeLoop db b0 (b1 :: rest)).1, (mergeLoop db b0 (b1 :: rest)).2, false) := by
    simp only [hookFetchOrCreate, hdup]
  rw [hfoc] at heval
  refine ⟨_, heval, ?_, ?_, ?_, rfl⟩
  · exact (mergeLoop_filter_hook hook_id (b1 :: rest) db b0 hwf.1 hdup).1
  · exact (mergeLoop_snd_fields (b1 :: rest) db b0).1
  · intro r
    rw [mergeLoop_snd_qty r (b1 :: rest) db b0]
    simp only [List.map_cons, List.sum_cons]

/-- Witness for `c3_duplicate_hook_merge`: two baskets share hook id `"h"`
(ids 0 and 1); the staff call merges basket 1 into basket 0, summing the
quantities of `"r"`. -/
theorem c3_duplicate_hook_merge_witness :
    ((DB.mk [Basket.mk 0 none (some "h") [Item.mk "r" 2 none],
             Basket.mk 1 none (some "h") [Item.mk "r" 3 none, Item.mk "s" 1 none]] 2).WF ∧
     staffWithHook (Request.mk (some []) (some (User.mk 7 true true))) (some "h") = true ∧
     sessionBasketLookup
        (DB.mk [Basket.mk 0 none (some "h") [Item.mk "r" 2 none],
                Basket.mk 1 none (some "h") [Item.mk "r" 3 none, Item.mk "s" 1 none]] 2)
        ((Request.mk (some []) (some (User.mk 7 true true))).session.getD [])
        (sessionKeyFor (some "h")) = .ok none ∧
     (DB.mk [Basket.mk 0 none (some "h") [Item.mk "r" 2 none],
             Basket.mk 1 none (some "h") [Item.mk "r" 3 none, Item.mk "s" 1 none]] 2).baskets.filter
        (fun x => x.hook_id == some "h")
       = [Basket.mk 0 none (some "h") [Item.mk "r" 2 none],
          Basket.mk 1 none (some "h") [Item.mk "r" 3 none, Item.mk "s" 1 none]]) ∧
    (∃ out : ResolveOut,
      CustomBasketManager.get_or_create_from_request
          (DB.mk [Basket.mk 0 none (some "h") [Item.mk "r" 2 none],
                  Basket.mk 1 none (some "h") [Item.mk "r" 3 none, Item.mk "s" 1 none]] 2)
          (Request.mk (some []) (some (User.mk 7 true true))) (some "h") = .ok out ∧
      out.db.baskets.filter (fun x => x.hook_id == some "h") = [out.basket] ∧
      out.basket.id = (Basket.mk 0 none (some "h") [Item.mk "r" 2 none]).id ∧
      (∀ r : String, qtyOf out.basket.items r
        = (([Basket.mk 0 none (some "h") [Item.mk "r" 2 none],
             Basket.mk 1 none (some "h") [Item.mk "r" 3 none, Item.mk "s" 1 none]]).map
            (fun x => qtyOf x.items r)).sum) ∧
      out.created = false) :=
  ⟨⟨by decide, rfl, rfl, rfl⟩,
   c3_duplicate_hook_merge _ _ _ _ _ _ (by decide) rfl rfl rfl⟩

/-- C3 counterexample: with two baskets sharing hook id `"h"` AND a session
basket (id 2) holding one unit of `"s"`, the staff call folds the session
basket in too: the surviving basket carries `"s"`, which appears in neither
of the hook-sharing originals, so its item set is not the union of the
originals' items. -/
theorem c3_session_items_counterexample :
    CustomBasketManager.get_or_create_from_request
        (DB.mk [Basket.mk 0 none (some "h") [Item.mk "r" 2 none],
                Basket.mk 1 none (some "h") [Item.mk "r" 3 none],
                Basket.mk 2 none none [Item.mk "s" 1 none]] 3)
        (Request.mk (some [("BASKET_ID_h", 2)]) (some (User.mk 7 true true)))
        (some "h")
      = .ok ⟨DB.mk [Basket.mk 0 none (some "h")
                [Item.mk "r" 5 none, Item.mk "s" 1 none]] 3,
             [],
             Basket.mk 0 none (some "h") [Item.mk "r" 5 none, Item.mk "s" 1 none],
             false⟩ ∧
    qtyOf [Item.mk "r" 5 none, Item.mk "s" 1 none] "s" = 1 ∧
    (([Basket.mk 0 none (some "h") [Item.mk "r" 2 none],
       Basket.mk 1 none (some "h") [Item.mk "r" 3 none]].map
        (fun x => qtyOf x.items "s")).sum = 0) :=
  ⟨rfl, rfl, rfl⟩

/-- C4: a staff call with a hook id that also finds a session basket folds
the session basket's items into the hook-resolved basket (quantities per
product reference add up) and removes the session key from the session
store. -/
theorem c4_session_fold (db : DB) (req : Request) (hook_id : Option String)
    (sb : Basket)
    (hst : staffWithHook req hook_id = true)
    (hsess : sessionBasketLookup db (req.session.getD []) (sessionKeyFor hook_id)
      = .ok (some sb)) :
    ∃ out : ResolveOut,
      CustomBasketManager.get_or_create_from_request db req hook_id = .ok out ∧
      (∀ r : String, qtyOf out.basket.items r
        = qtyOf (hookFetchOrCreate db hook_id).2.1.items r + qtyOf sb.items r) ∧
      out.session.lookup (sessionKeyFor hook_id) = none := by
  have heval := get_or_create_staff_session db req hook_id sb hst hsess
  refine ⟨_, heval, ?_, ?_⟩
  · intro r
    exact qtyOf_mergeItems (hookFetchOrCreate db hook_id).2.1.items sb.items r
  · have hs := sessionBasketLookup_some_isSome db (req.session.getD [])
      (sessionKeyFor hook_id) sb hsess
    show (if ((req.session.getD []).lookup (sessionKeyFor hook_id)).isSome
          then sessDel (req.session.getD []) (sessionKeyFor hook_id)
          else req.session.getD []).lookup (sessionKeyFor hook_id) = none
    rw [hs, if_pos rfl]
    exact lookup_sessDel _ _

/-- Witness for `c4_session_fold`: staff request with hook id `"h"`, no
hook-keyed basket yet (one is created), and a session basket (id 0) with
two units of `"r"`; its items end up in the hook basket and the session key
is gone. -/
theorem c4_session_fold_witness :
    (staffWithHook (Request.mk (some [("BASKET_ID_h", 0)]) (some (User.mk 7 true true)))
        (some "h") = true ∧
     sessionBasketLookup (DB.mk [Basket.mk 0 none none [Item.mk "r" 2 none]] 1)
        ((Request.mk (some [("BASKET_ID_h", 0)])
          (some (User.mk 7 true true))).session.getD [])
        (sessionKeyFor (some "h"))
       = .ok (some (Basket.mk 0 none none [Item.mk "r" 2 none]))) ∧
    (∃ out : ResolveOut,
      CustomBasketManager.get_or_create_from_request
          (DB.mk [Basket.mk 0 none none [Item.mk "r" 2 none]] 1)
          (Request.mk (some [("BASKET_ID_h", 0)]) (some (User.mk 7 true true)))
          (some "h") = .ok out ∧
      (∀ r : String, qtyOf out.basket.items r
        = qtyOf (hookFetchOrCreate (DB.mk [Basket.mk 0 none none [Item.mk "r" 2 none]] 1)
            (some "h")).2.1.items r
          + qtyOf (Basket.mk 0 none none [Item.mk "r" 2 none]).items r) ∧
      out.session.lookup (sessionKeyFor (some "h")) = none) :=
  ⟨⟨rfl, rfl⟩, c4_session_fold _ _ _ _ rfl rfl⟩

theorem staffWithHook_none_hook (req : Request) :
    staffWithHook req none = false := by
  cases hu : req.user <;> simp [staffWithHook, hu, isTruthy]

theorem get_or_create_anonymous (db : DB) (req : Request)
    (sb : Option Basket)
    (hanon : requestAuthenticated req = false)
    (hsess : sessionBasketLookup db (req.session.getD []) BASKET_ID_SESSION_KEY
      = .ok sb) :
    CustomBasketManager.get_or_create_from_request db req none
      = .ok (anonymousResolve db (req.session.getD []) BASKET_ID_SESSION_KEY sb) := by
  have hkey : sessionKeyFor none = BASKET_ID_SESSION_KEY := rfl
  have hstf := staffWithHook_none_hook req
  simp only [CustomBasketManager.get_or_create_from_request, hkey, hsess, hstf,
    Bool.false_eq_true, if_false]
  cases hu : req.user with
  | none => simp [hu]
  | some u =>
      have hua : u.is_authenticated = false := by
        simpa [requestAuthenticated, hu] using hanon
      simp [hu, hua]

/-- C5: an anonymous request with no valid session basket creates exactly
one new ownerless basket, stores its primary key under `"BASKET_ID"` and
returns `created = True`; a second call replaying the resulting session
returns the same basket with `created = False` and leaves the store
unchanged. -/
theorem c5_anonymous_create (db : DB) (req : Request)
    (hwf : db.WF)
    (hanon : requestAuthenticated req = false)
    (hsess : sessionBasketLookup db (req.session.getD []) BASKET_ID_SESSION_KEY
      = .ok none) :
    ∃ out : ResolveOut,
      CustomBasketManager.get_or_create_from_request db req none = .ok out ∧
      out.db.baskets = db.baskets ++ [out.basket] ∧
      out.basket.user = none ∧
      out.basket.items = [] ∧
      out.created = true ∧
      out.session.lookup BASKET_ID_SESSION_KEY = some out.basket.id ∧
      ∃ out2 : ResolveOut,
        CustomBasketManager.get_or_create_from_request out.db
            (Request.mk (some out.session) req.user) none = .ok out2 ∧
        out2.basket = out.basket ∧ out2.created = false ∧ out2.db = out.db := by
  have heval1 := get_or_create_anonymous db req none hanon hsess
  set sess := req.session.getD [] with hsessdef
  set newB : Basket := ⟨db.nextId, none, none, []⟩ with hnewB
  refine ⟨⟨⟨db.baskets ++ [newB], db.nextId + 1⟩,
           sessSet sess BASKET_ID_SESSION_KEY db.nextId, newB, true⟩,
          heval1, rfl, rfl, rfl, rfl, ?_, ?_⟩
  · exact lookup_sessSet_self sess BASKET_ID_SESSION_KEY db.nextId
  · -- the replayed call
    have hfil2 : (db.baskets ++ [newB]).filter
        (fun b => b.id == db.nextId && b.user == none) = [newB] := by
      rw [List.filter_append]
      have h1 : db.baskets.filter (fun b => b.id == db.nextId && b.user == none)
          = [] := by
        rw [List.filter_eq_nil_iff]
        intro b hb
        have hlt := hwf.2 b hb
        simp [Nat.ne_of_lt hlt]
      rw [h1]
      simp [hnewB]
    have hsess2 : sessionBasketLookup ⟨db.baskets ++ [newB], db.nextId + 1⟩
        (sessSet sess BASKET_ID_SESSION_KEY db.nextId) BASKET_ID_SESSION_KEY
        = .ok (some newB) := by
      simp only [sessionBasketLookup, lookup_sessSet_self, hfil2]
    have hanon2 : requestAuthenticated
        (Request.mk (some (sessSet sess BASKET_ID_SESSION_KEY db.nextId)) req.user)
        = false := by
      cases hu : req.user with
      | none => rfl
      | some u =>
          have hua : u.is_authenticated = false := by
            simpa [requestAuthenticated, hu] using hanon
          simp [requestAuthenticated, hua]
    have heval2 := get_or_create_anonymous ⟨db.baskets ++ [newB], db.nextId + 1⟩
      (Request.mk (some (sessSet sess BASKET_ID_SESSION_KEY db.nextId)) req.user)
      (some newB) hanon2 hsess2
    refine ⟨_, heval2, rfl, rfl, rfl⟩

/-- Witness for `c5_anonymous_create`: the empty store and a sessionless
anonymous request. -/
theorem c5_anonymous_create_witness :
    ((DB.mk [] 0).WF ∧
     requestAuthenticated (Request.mk (some []) none) = false ∧
     sessionBasketLookup (DB.mk [] 0)
        ((Request.mk (some []) none).session.getD []) BASKET_ID_SESSION_KEY
       = .ok none) ∧
    (∃ out : ResolveOut,
      CustomBasketManager.get_or_create_from_request (DB.mk [] 0)
          (Request.mk (some []) none) none = .ok out ∧
      out.db.baskets = (DB.mk [] 0).baskets ++ [out.basket] ∧
      out.basket.user = none ∧
      out.basket.items = [] ∧
      out.created = true ∧
      out.session.lookup BASKET_ID_SESSION_KEY = some out.basket.id ∧
      ∃ out2 : ResolveOut,
        CustomBasketManager.get_or_create_from_request out.db
            (Request.mk (some out.session) (Request.mk (some []) none).user) none
          = .ok out2 ∧
        out2.basket = out.basket ∧ out2.created = false ∧ out2.db = out.db) :=
  ⟨⟨by decide, rfl, rfl⟩, c5_anonymous_create _ _ (by decide) rfl rfl⟩

/-! ## Claims about the checkout endpoint and item creation -/

/-- C7: a checkout whose body carries a (truthy) `hook_id` matching no
basket is answered with the HTTP 400 validation outcome, distinct from the
HTTP 402 payment outcome and from a server fault. -/
theorem c7_unresolvable_hook_rejected (db : DB) (req : Request)
    (bodyHook : Option String) (paymentOk : Bool)
    (htr : isTruthy bodyHook = true)
    (hnone : db.baskets.filter (fun b => b.hook_id == bodyHook) = []) :
    checkout_create db req bodyHook paymentOk = .badRequest ∧
    CheckoutOutcome.badRequest ≠ CheckoutOutcome.paymentRequired ∧
    CheckoutOutcome.badRequest ≠ CheckoutOutcome.serverFault := by
  refine ⟨?_, by decide, by decide⟩
  simp only [checkout_create, get_serializer_context, htr, if_true, hnone]

/-- Witness for `c7_unresolvable_hook_rejected`: hook id `"h"` against a
store holding only a basket with no hook id. -/
theorem c7_unresolvable_hook_rejected_witness :
    (isTruthy (some "h") = true ∧
     (DB.mk [Basket.mk 0 none none []] 1).baskets.filter
        (fun b => b.hook_id == some "h") = []) ∧
    (checkout_create (DB.mk [Basket.mk 0 none none []] 1)
        (Request.mk (some []) none) (some "h") true = .badRequest ∧
     CheckoutOutcome.badRequest ≠ CheckoutOutcome.paymentRequired ∧
     CheckoutOutcome.badRequest ≠ CheckoutOutcome.serverFault) :=
  ⟨⟨rfl, rfl⟩,
   c7_unresolvable_hook_rejected _ (Request.mk (some []) none) _ true rfl rfl⟩

theorem insertItem_proj (it : Item) :
    ∀ l : List Item,
      ((insertItem l it).map (fun x => (x.ref, x.hook_id))
          = l.map (fun x => (x.ref, x.hook_id))) ∨
      ((insertItem l it).map (fun x => (x.ref, x.hook_id))
          = l.map (fun x => (x.ref, x.hook_id)) ++ [(it.ref, it.hook_id)]) := by
  intro l
  induction l with
  | nil => right; rfl
  | cons a t ih =>
      by_cases ha : a.ref = it.ref
      · left
        have hbeq : (a.ref == it.ref) = true := by simpa using ha
        simp [insertItem, hbeq]
      · have hbeq : (a.ref == it.ref) = false := by simpa using ha
        cases ih with
        | inl h => left; simp [insertItem, hbeq, h]
        | inr h => right; simp [insertItem, hbeq, h]

/-- C10: an item-creation payload with a truthy `hook_id` overwrites the
resolved basket's `hook_id` with the payload value and persists it — the
row with that primary key afterwards carries the payload hook id and the
`add`-ed items — while the items' own `hook_id` column is never assigned:
the `(ref, hook_id)` projection of the item list is unchanged except for a
possibly appended `(ref, none)` row. -/
theorem c10_item_create_hook_overwrite (db : DB) (basketId : Nat)
    (payloadHook : Option String) (ref : String) (q : Nat) (b : Basket)
    (hn : (db.baskets.map Basket.id).Nodup)
    (hb : b ∈ db.baskets) (hbid : b.id = basketId)
    (htr : isTruthy payloadHook = true) :
    (({ b with hook_id := payloadHook, items := basketAdd b.items ref q } : Basket)
        ∈ (basket_item_create db basketId payloadHook ref q).baskets) ∧
    (∀ x ∈ (basket_item_create db basketId payloadHook ref q).baskets,
      x.id = basketId →
      x = { b with hook_id := payloadHook, items := basketAdd b.items ref q }) ∧
    ((basketAdd b.items ref q).map (fun it => (it.ref, it.hook_id))
        = b.items.map (fun it => (it.ref, it.hook_id)) ∨
     (basketAdd b.items ref q).map (fun it => (it.ref, it.hook_id))
        = b.items.map (fun it => (it.ref, it.hook_id)) ++ [(ref, none)]) := by
  set f1 : Basket → Basket :=
    fun x => if x.id == basketId then { x with hook_id := payloadHook } else x with hf1
  set f2 : Basket → Basket :=
    fun x => if x.id == basketId then { x with items := basketAdd x.items ref q } else x
    with hf2
  have hdb : (basket_item_create db basketId payloadHook ref q).baskets
      = (db.baskets.map f1).map f2 := by
    simp only [basket_item_create, htr, if_true, dbUpdateRow, hf1, hf2]
  have hid1 : ∀ z : Basket, (f1 z).id = z.id := by
    intro z; by_cases hz : z.id = basketId <;> simp [hf1, hz]
  have hid2 : ∀ z : Basket, (f2 z).id = z.id := by
    intro z; by_cases hz : z.id = basketId <;> simp [hf2, hz]
  have hfb : f2 (f1 b) = { b with hook_id := payloadHook, items := basketAdd b.items ref q } := by
    simp [hf1, hf2, hbid]
  refine ⟨?_, ?_, ?_⟩
  · rw [hdb, ← hfb]
    exact List.mem_map_of_mem f2 (List.mem_map_of_mem f1 hb)
  · intro x hx hxid
    rw [hdb] at hx
    obtain ⟨y, hy, hyx⟩ := List.mem_map.mp hx
    obtain ⟨z, hz, hzy⟩ := List.mem_map.mp hy
    have hzid : z.id = basketId := by
      have := hid2 y
      rw [hyx] at this
      have hzy2 := hid1 z
      rw [hzy] at hzy2
      omega
    have hzb : z = b := List.inj_on_of_nodup_map hn hz hb (hzid.trans hbid.symm)
    subst hzb
    rw [← hyx, ← hzy, hfb]
  · exact insertItem_proj ⟨ref, q, none⟩ b.items

/-- Witness for `c10_item_create_hook_overwrite`: payload hook `"h"` on
basket 5 whose one item keeps its old (null-free) hook column while `"x"`
is appended with a null hook. -/
theorem c10_item_create_hook_overwrite_witness :
    (((DB.mk [Basket.mk 5 none none [Item.mk "r" 1 (some "old")]] 6).baskets.map
        Basket.id).Nodup ∧
     Basket.mk 5 none none [Item.mk "r" 1 (some "old")]
        ∈ (DB.mk [Basket.mk 5 none none [Item.mk "r" 1 (some "old")]] 6).baskets ∧
     (Basket.mk 5 none none [Item.mk "r" 1 (some "old")]).id = 5 ∧
     isTruthy (some "h") = true) ∧
    (({ Basket.mk 5 none none [Item.mk "r" 1 (some "old")] with
        hook_id := some "h",
        items := basketAdd [Item.mk "r" 1 (some "old")] "x" 2 } : Basket)
        ∈ (basket_item_create (DB.mk [Basket.mk 5 none none [Item.mk "r" 1 (some "old")]] 6)
            5 (some "h") "x" 2).baskets ∧
     (∀ x ∈ (basket_item_create (DB.mk [Basket.mk 5 none none [Item.mk "r" 1 (some "old")]] 6)
            5 (some "h") "x" 2).baskets,
        x.id = 5 →
        x = { Basket.mk 5 none none [Item.mk "r" 1 (some "old")] with
              hook_id := some "h",
              items := basketAdd [Item.mk "r" 1 (some "old")] "x" 2 }) ∧
     ((basketAdd [Item.mk "r" 1 (some "old")] "x" 2).map (fun it => (it.ref, it.hook_id))
        = [Item.mk "r" 1 (some "old")].map (fun it => (it.ref, it.hook_id)) ∨
      (basketAdd [Item.mk "r" 1 (some "old")] "x" 2).map (fun it => (it.ref, it.hook_id))
        = [Item.mk "r" 1 (some "old")].map (fun it => (it.ref, it.hook_id)) ++ [("x", none)])) :=
  ⟨⟨by decide, by decide, rfl, rfl⟩,
   c10_item_create_hook_overwrite _ 5 (some "h") "x" 2 _
     (by decide) (by decide) rfl rfl⟩

end Salesman
